/-
  Verification of the movie-data ETL + SQL query layer.

  Shallow embedding of the repository's `etl_utils.py` and `sql_utils.py`:
  a pandas DataFrame is a list of association rows plus a record of which
  columns carry pandas "object" dtype (the dtype decides which columns the
  final `.str.strip()` loop touches); SQLite state is an association list
  of named tables; filesystem state for the archiver is an explicit record.
-/
import Mathlib


set_option maxRecDepth 4000

/-! ## Cells, rows and frames

A cell of a pandas DataFrame: `none` models a missing value (NaN / None /
NaT); a present value is either a string or a number.  Numbers are modelled
as rationals (enough for the float/int columns the claims touch). -/

inductive CVal where
  | str (s : String) : CVal
  | num (q : Rat) : CVal
deriving DecidableEq

/-- A cell is either missing (`none`) or holds a value. -/
abbrev Cell := Option CVal

/-- A row: association list from column name to cell.  A column absent from
the list reads as a missing value. -/
abbrev Row := List (String × Cell)

/-- Read a cell of a row; the first binding of the name wins, a missing
binding reads as null (matching a DataFrame row that has no value there). -/
def getCell : Row → String → Cell
  | [], _ => none
  | (c, v) :: r, c2 => if c = c2 then v else getCell r c2

/-- Remove every binding of a column name from a row. -/
def eraseCol (r : Row) (c : String) : Row :=
  r.filter (fun p => !(p.1 = c))

/-- Column assignment `df[c] = v`, per row: bind `c` to `v`, dropping any
previous binding. -/
def setCell (r : Row) (c : String) (v : Cell) : Row :=
  (c, v) :: eraseCol r c

/-- Projection `df[cols]` per row: keep only bindings of kept columns. -/
def projRow (keep : List String) (r : Row) : Row :=
  r.filter (fun p => p.1 ∈ keep)

/-- A SQL `SELECT c1, c2, ...` applied to one row: rebuild the row with
exactly the selected columns, in select order. -/
def selectRow (cols : List String) (r : Row) : Row :=
  cols.map (fun c => (c, getCell r c))

/-- `dropna(subset=subset)` on a list of rows: keep the rows whose every
subset column is non-null. -/
def dropnaRows (rows : List Row) (subset : List String) : List Row :=
  rows.filter (fun r => subset.all (fun c => (getCell r c).isSome))

/-- A DataFrame: its column list, the subset of columns with pandas
`object` dtype (string-ish columns; only these are touched by the final
`.str.strip()` loop of `clean_dataframe`), and its rows. -/
structure DataFrame where
  cols : List String
  objCols : List String
  rows : List Row
deriving DecidableEq

/-! ## Python literal values and `ast.literal_eval`

`extract_genres` feeds its argument to `ast.literal_eval` and flattens the
result.  `PyVal` models the Python values the genre payloads consist of
(`None`/booleans/ints/strings/lists/dicts-with-string-keys); `pyLiteralEval`
models `ast.literal_eval` on that fragment (no escape sequences, no floats,
no tuples/sets, no non-string dict keys — any such input parses to `none`,
i.e. is treated as a parse failure). -/

inductive PyVal where
  | none : PyVal
  | bool (b : Bool) : PyVal
  | int (n : Int) : PyVal
  | str (s : String) : PyVal
  | list (l : List PyVal) : PyVal
  | dict (kvs : List (String × PyVal)) : PyVal

def isWsChar (c : Char) : Bool := c = ' ' || c = '\t' || c = '\n' || c = '\r'

def skipWs (cs : List Char) : List Char := cs.dropWhile isWsChar

/-- Split a character list on a separator character (semantics of Python's
`str.split(sep)` / `Path` component splitting on the modelled fragment). -/
def splitChAux (sep : Char) : List Char → List Char → List (List Char)
  | [], acc => [acc.reverse]
  | c :: rest, acc =>
    if c = sep then acc.reverse :: splitChAux sep rest []
    else splitChAux sep rest (c :: acc)

def quoteD : Char := Char.ofNat 34

def quoteS : Char := Char.ofNat 39

def braceL : Char := Char.ofNat 123

def braceR : Char := Char.ofNat 125

def digitVal (c : Char) : Nat := c.toNat - 48

def readDigits (cs : List Char) : Nat := cs.foldl (fun a c => a * 10 + digitVal c) 0

/-- Parse an integer literal (optional minus sign, then digits). -/
def parseIntTok (cs : List Char) : Option (PyVal × List Char) :=
  match cs with
  | [] => Option.none
  | c :: rest =>
    if c = '-' then
      let ds := rest.takeWhile Char.isDigit
      if ds.isEmpty then Option.none
      else Option.some (.int (-(readDigits ds : Int)), rest.drop ds.length)
    else
      let ds := cs.takeWhile Char.isDigit
      if ds.isEmpty then Option.none
      else Option.some (.int (readDigits ds : Int), cs.drop ds.length)

/-- Parse a quoted string literal (single or double quotes, no escapes). -/
def parseStrTok (cs : List Char) : Option (PyVal × List Char) :=
  match cs with
  | [] => Option.none
  | q :: rest =>
    if q = quoteD || q = quoteS then
      let content := rest.takeWhile (fun c => !(c = q))
      match rest.drop content.length with
      | c2 :: rest2 => if c2 = q then Option.some (.str (String.mk content), rest2) else Option.none
      | [] => Option.none
    else Option.none

/-- Parse the keywords `None`, `True`, `False`. -/
def parseKw (cs : List Char) : Option (PyVal × List Char) :=
  if List.isPrefixOf ['N', 'o', 'n', 'e'] cs then Option.some (.none, cs.drop 4)
  else if List.isPrefixOf ['T', 'r', 'u', 'e'] cs then Option.some (.bool true, cs.drop 4)
  else if List.isPrefixOf ['F', 'a', 'l', 's', 'e'] cs then Option.some (.bool false, cs.drop 5)
  else Option.none

/-- Parser mode: a full value, the items of a list after `[`, or the
key/value pairs of a dict after the opening brace. -/
inductive PMode where
  | value : PMode
  | listTail : PMode
  | dictTail : PMode

/-- Fuel-indexed recursive-descent parser for the Python literal fragment.
`listTail` returns its items wrapped as `PyVal.list`, `dictTail` its pairs
wrapped as `PyVal.dict`. -/
def parseF : Nat → PMode → List Char → Option (PyVal × List Char)
  | 0, _, _ => Option.none
  | Nat.succ f, PMode.value, cs =>
    let cs1 := skipWs cs
    match cs1 with
    | [] => Option.none
    | c :: rest =>
      if c = '[' then parseF f PMode.listTail rest
      else if c = braceL then parseF f PMode.dictTail rest
      else if c = quoteD || c = quoteS then parseStrTok cs1
      else if c = '-' || c.isDigit then parseIntTok cs1
      else parseKw cs1
  | Nat.succ f, PMode.listTail, cs =>
    let cs1 := skipWs cs
    match cs1 with
    | [] => Option.none
    | c :: rest =>
      if c = ']' then Option.some (.list [], rest)
      else
        match parseF f PMode.value cs1 with
        | Option.none => Option.none
        | Option.some (v, cs2) =>
          match skipWs cs2 with
          | [] => Option.none
          | c2 :: rest2 =>
            if c2 = ',' then
              match parseF f PMode.listTail rest2 with
              | Option.some (PyVal.list l, cs4) => Option.some (.list (v :: l), cs4)
              | _ => Option.none
            else if c2 = ']' then Option.some (.list [v], rest2)
            else Option.none
  | Nat.succ f, PMode.dictTail, cs =>
    let cs1 := skipWs cs
    match cs1 with
    | [] => Option.none
    | c :: _ =>
      if c = braceR then Option.some (.dict [], cs1.drop 1)
      else
        match parseF f PMode.value cs1 with
        | Option.some (PyVal.str k, cs2) =>
          match skipWs cs2 with
          | [] => Option.none
          | c2 :: rest2 =>
            if c2 = ':' then
              match parseF f PMode.value rest2 with
              | Option.none => Option.none
              | Option.some (v, cs3) =>
                match skipWs cs3 with
                | [] => Option.none
                | c3 :: rest3 =>
                  if c3 = ',' then
                    match parseF f PMode.dictTail rest3 with
                    | Option.some (PyVal.dict kvs, cs4) => Option.some (.dict ((k, v) :: kvs), cs4)
                    | _ => Option.none
                  else if c3 = braceR then Option.some (.dict [(k, v)], rest3)
                  else Option.none
            else Option.none
        | _ => Option.none

/-- `ast.literal_eval` on the modelled fragment: parse one value and require
only whitespace to remain.  `none` models "an exception was raised". -/
def pyLiteralEval (s : String) : Option PyVal :=
  match parseF (2 * s.length + 8) PMode.value s.data with
  | Option.some (v, rest) => if (skipWs rest).isEmpty then Option.some v else Option.none
  | Option.none => Option.none

/-! ## `extract_genres`

The body `"|".join(g["name"] for g in genres_list if "name" in g)` is
modelled as an `Except Unit` computation: every Python exception a step can
raise (TypeError from iterating a non-iterable, TypeError from `"name" in g`
on an int, TypeError from indexing a non-dict or joining a non-string)
becomes `.error ()`, and the bare `except:` of the source collapses any
error to `None`. -/

/-- `for g in genres_list`: lists yield their items, strings their
characters, dicts their keys; other values raise TypeError. -/
def pyIterElems : PyVal → Except Unit (List PyVal)
  | .list l => .ok l
  | .str s => .ok (s.data.map (fun c => PyVal.str (String.mk [c])))
  | .dict kvs => .ok (kvs.map (fun kv => PyVal.str kv.1))
  | _ => .error ()

def listContainsSub (needle : List Char) : List Char → Bool
  | [] => needle.isEmpty
  | c :: t => List.isPrefixOf needle (c :: t) || listContainsSub needle t

/-- Case-sensitive substring test (Python's `in` on strings). -/
def strContainsSub (hay needle : String) : Bool := listContainsSub needle.data hay.data

/-- `"name" in g`: key test on dicts, substring test on strings, membership
on lists; TypeError on ints/bools/None. -/
def pyHasName : PyVal → Except Unit Bool
  | .dict kvs => .ok (kvs.any (fun p => p.1 = "name"))
  | .str s => .ok (strContainsSub s "name")
  | .list l => .ok (l.any (fun v => match v with | .str s => s = "name" | _ => false))
  | _ => .error ()

/-- `g["name"]` followed by the `str.join` element check: returns the name
when `g` is a dict mapping `"name"` to a string, raises otherwise. -/
def pyGetNameStr : PyVal → Except Unit String
  | .dict kvs =>
    match kvs.lookup "name" with
    | Option.some (PyVal.str s) => .ok s
    | _ => .error ()
  | _ => .error ()

/-- The `if "name" in g` filter of the generator expression. -/
def exFilterName : List PyVal → Except Unit (List PyVal)
  | [] => .ok []
  | g :: l => do
    let b ← pyHasName g
    let rest ← exFilterName l
    pure (if b then g :: rest else rest)

/-- The try-block of `extract_genres` after `literal_eval` succeeded. -/
def extractGenresE (v : PyVal) : Except Unit String := do
  let elems ← pyIterElems v
  let kept ← exFilterName elems
  let names ← kept.mapM pyGetNameStr
  pure (String.intercalate "|" names)

/-- `extract_genres(genre_str)`: applied by `df["genres"].apply(...)` to each
cell.  A missing cell (NaN) or a numeric cell makes `literal_eval` raise,
the bare `except:` turns every failure into `None`. -/
def extract_genres (cell : Cell) : Option String :=
  match cell with
  | Option.some (CVal.str s) =>
    match pyLiteralEval s with
    | Option.none => Option.none
    | Option.some v =>
      match extractGenresE v with
      | .ok t => Option.some t
      | .error _ => Option.none
  | _ => Option.none

/-! ## Python `str.strip` -/

/-- Python `str.strip()`: drop leading and trailing whitespace (ASCII
whitespace fragment). -/
def pyStrip (s : String) : String :=
  String.mk (List.rdropWhile isWsChar (s.data.dropWhile isWsChar))

/-! ## `pd.to_datetime(..., errors="coerce")` and `.dt.year`

Modelled as the year extraction it is used for.  The string fragment
covers ISO `YYYY-MM-DD` dates inside pandas' Timestamp range; anything
else coerces to NaT (`none`).  A numeric cell is a valid epoch timestamp
for pandas (nanoseconds), which lands in 1970 for moderate magnitudes;
a missing cell is NaT. -/

def pdParseDate (cell : Cell) : Option Int :=
  match cell with
  | Option.none => Option.none
  | Option.some (CVal.num _) => Option.some 1970
  | Option.some (CVal.str s) =>
    match s.data with
    | [y1, y2, y3, y4, s1, m1, m2, s2, d1, d2] =>
      if y1.isDigit && y2.isDigit && y3.isDigit && y4.isDigit
          && (s1 = '-') && (s2 = '-')
          && m1.isDigit && m2.isDigit && d1.isDigit && d2.isDigit then
        let y : Nat := digitVal y1 * 1000 + digitVal y2 * 100 + digitVal y3 * 10 + digitVal y4
        let m : Nat := digitVal m1 * 10 + digitVal m2
        let d : Nat := digitVal d1 * 10 + digitVal d2
        if 1 ≤ m && m ≤ 12 && 1 ≤ d && d ≤ 31 && 1678 ≤ y && y ≤ 2261 then
          Option.some (y : Int)
        else Option.none
      else Option.none
    | _ => Option.none

/-! ## `clean_dataframe` -/

/-- The fixed column set kept by `clean_dataframe`. -/
def keepColsList : List String :=
  ["id", "title", "release_year", "vote_average", "vote_count",
   "popularity", "budget", "revenue", "genres"]

/-- Append a column name if not already present (column assignment on a
frame lacking the column appends it). -/
def addCol (cols : List String) (c : String) : List String :=
  if c ∈ cols then cols else cols ++ [c]

/-- Row transform of the `release_date` branch: `df["release_date"] =
pd.to_datetime(...)`, `df["release_year"] = df["release_date"].dt.year`
(the datetime cell is represented by its year, the only part consumed). -/
def dateRowT (r : Row) : Row :=
  let y := pdParseDate (getCell r "release_date")
  setCell (setCell r "release_date" (y.map (fun n => CVal.num (n : Rat))))
    "release_year" (y.map (fun n => CVal.num (n : Rat)))

/-- Row transform of the genres branch: `df["genres"] =
df["genres"].apply(extract_genres)`. -/
def genRowT (r : Row) : Row :=
  setCell r "genres" ((extract_genres (getCell r "genres")).map CVal.str)

/-- `.str.strip()` on one cell of an object column: strings are stripped,
non-string values become NaN (pandas `Series.str` yields NaN for
non-string elements), missing stays missing. -/
def stripCell : Cell → Cell
  | Option.some (CVal.str s) => Option.some (CVal.str (pyStrip s))
  | Option.some (CVal.num _) => Option.none
  | Option.none => Option.none

/-- The `.str.strip()` loop over the object-dtyped columns, on one row. -/
def stripRow (objCs : List String) (r : Row) : Row :=
  r.map (fun p => if p.1 ∈ objCs then (p.1, stripCell p.2) else p)

/-- Column list after the year/genres assignments. -/
def colsStage (df : DataFrame) : List String :=
  addCol (addCol df.cols "release_year") "genres"

/-- The projected column list `[col for col in keep_cols if col in df.columns]`. -/
def colsKeep (df : DataFrame) : List String :=
  keepColsList.filter (fun c => c ∈ colsStage df)

/-- Object-dtyped columns after the assignments: `release_date` becomes
datetime64 and `release_year` numeric when a `release_date` column exists;
otherwise `release_year` is an all-`None` object column; `genres` is always
object after its assignment. -/
def objColsStage (df : DataFrame) : List String :=
  let base := if "release_date" ∈ df.cols then
      df.objCols.filter (fun c => !(c = "release_date") && !(c = "release_year"))
    else addCol df.objCols "release_year"
  addCol base "genres"

/-- Object-dtyped columns surviving the projection. -/
def objKeep (df : DataFrame) : List String :=
  (objColsStage df).filter (fun c => c ∈ colsKeep df)

/-- The year-derivation step on one row: either branch of the
`release_date` conditional. -/
def dT (df : DataFrame) (r : Row) : Row :=
  if "release_date" ∈ df.cols then dateRowT r
  else setCell r "release_year" Option.none

/-- The genre-flattening step on one row: either branch of the `genres`
conditional. -/
def gT (df : DataFrame) (r : Row) : Row :=
  if "genres" ∈ addCol df.cols "release_year" then genRowT r
  else setCell r "genres" Option.none

/-- Per-row transform between the title drop and the final dropna: year
derivation, genre flattening, projection. -/
def transRow (df : DataFrame) (r : Row) : Row :=
  projRow (colsKeep df) (gT df (dT df r))

/-- The guarded `dropna(subset=["title"])`: a row survives unless the frame
has a title column and the row's title is null. -/
def titleKeepP (df : DataFrame) (r : Row) : Bool :=
  if "title" ∈ df.cols then (getCell r "title").isSome else true

/-- The final `dropna(subset=["title", "release_year"])` row predicate. -/
def finalKeepP (r : Row) : Bool :=
  (getCell r "title").isSome && (getCell r "release_year").isSome

/-- `clean_dataframe(df)`, step for step from the source.  The result is
`Except`-valued because the final `dropna(subset=["title", ...])` raises a
`KeyError` when the projected frame has no `title` column. -/
def clean_dataframe (df : DataFrame) : Except String DataFrame :=
  -- Drop rows with missing essential title
  let rows1 := if "title" ∈ df.cols then dropnaRows df.rows ["title"] else df.rows
  -- Extract release_year from release_date (if present)
  let rows2 := if "release_date" ∈ df.cols then rows1.map dateRowT
    else rows1.map (fun r => setCell r "release_year" Option.none)
  -- Flatten genres column if present
  let rows3 := if "genres" ∈ addCol df.cols "release_year" then rows2.map genRowT
    else rows2.map (fun r => setCell r "genres" Option.none)
  -- Keep only useful columns for SQL queries
  let keep := colsKeep df
  let rows4 := rows3.map (projRow keep)
  -- Drop rows missing release_year or title after processing
  if "title" ∈ keep && "release_year" ∈ keep then
    let rows5 := dropnaRows rows4 ["title", "release_year"]
    -- Strip whitespace in string columns
    let rows6 := rows5.map (stripRow (objKeep df))
    Except.ok { cols := keep, objCols := objKeep df, rows := rows6 }
  else Except.error "KeyError"

/-- The whole pipeline as one per-row function: `none` when the row is
dropped, otherwise the cleaned output row. -/
def cleanRowFun (df : DataFrame) (r : Row) : Option Row :=
  if titleKeepP df r then
    if finalKeepP (transRow df r) then
      Option.some (stripRow (objKeep df) (transRow df r))
    else Option.none
  else Option.none

/-! ## `save_dataframe_to_sqlite`

The persisted state: one table per `(db_path, table_name)` key.
`to_sql(..., if_exists="replace", ...)` drops any table stored under the
key and writes the frame's rows. -/

abbrev Store := List ((String × String) × DataFrame)

def save_dataframe_to_sqlite (st : Store) (df : DataFrame)
    (db_path : String := "data.db") (table_name : String := "movies") : Store :=
  ((db_path, table_name), df) :: st.filter (fun p => !(p.1 = (db_path, table_name)))

def lookupTable (st : Store) (db_path table_name : String) : Option DataFrame :=
  st.lookup (db_path, table_name)

/-! ## SQLite value ordering and predicates

SQLite's cross-type ordering on the stored values: NULL sorts below
everything, numbers below text, numbers by value, text by byte order.
A `WHERE x >= k` comparison with a NULL operand yields NULL, i.e. the row
is filtered out. -/

def cvalLe : CVal → CVal → Bool
  | CVal.num a, CVal.num b => decide (a ≤ b)
  | CVal.num _, CVal.str _ => true
  | CVal.str _, CVal.num _ => false
  | CVal.str a, CVal.str b => decide (a ≤ b)

def sqliteLe : Cell → Cell → Bool
  | Option.none, _ => true
  | Option.some _, Option.none => false
  | Option.some a, Option.some b => cvalLe a b

/-- `x >= k` (k a number) in a WHERE clause: false when `x` is NULL. -/
def cellGeNum (c : Cell) (k : Rat) : Bool :=
  match c with
  | Option.none => false
  | Option.some v => cvalLe (CVal.num k) v

/-! ## Sorting (ORDER BY)

Insertion sort parameterized by a boolean total preorder; SQL leaves the
order of ties unspecified, so any sort satisfying the ordering contract is
a faithful model of ORDER BY. -/

def insertBy {α : Type} (le : α → α → Bool) (a : α) : List α → List α
  | [] => [a]
  | b :: l => if le a b then a :: b :: l else b :: insertBy le a l

def sortBy {α : Type} (le : α → α → Bool) : List α → List α
  | [] => []
  | a :: l => insertBy le a (sortBy le l)

/-! ## Query layer (`sql_utils.py`)

Each query function is the list-level semantics of its SQL text, applied to
the rows of the `movies` table: WHERE filter, SELECT projection, ORDER BY
sort, LIMIT take. -/

def hrpmCols : List String := ["title", "release_year", "vote_average", "vote_count"]

/-- `ORDER BY vote_average DESC` as a boolean preorder on rows (NULLs sort
last under DESC). -/
def byRatingDesc (r1 r2 : Row) : Bool :=
  sqliteLe (getCell r2 "vote_average") (getCell r1 "vote_average")

/-- The WHERE clause `vote_average >= {min_rating} AND vote_count >= {min_votes}`. -/
def hrpmCond (min_rating min_votes : Rat) (r : Row) : Bool :=
  cellGeNum (getCell r "vote_average") min_rating
    && cellGeNum (getCell r "vote_count") min_votes

/-- `high_rated_popular_movies(min_rating, min_votes)`; the LIMIT is the
hard-coded 10 of the query text. -/
def high_rated_popular_movies (rows : List Row)
    (min_rating : Rat := 8) (min_votes : Rat := 1000) : List Row :=
  ((sortBy byRatingDesc (rows.filter (hrpmCond min_rating min_votes))).take 10).map
    (selectRow hrpmCols)

/-- ASCII lower-casing, SQLite's case folding for LIKE. -/
def lowerA (c : Char) : Char :=
  if 'A' ≤ c ∧ c ≤ 'Z' then Char.ofNat (c.toNat + 32) else c

/-- `hay LIKE '%needle%'` for a needle containing no LIKE wildcards:
ASCII-case-insensitive substring containment. -/
def containsCI (hay needle : String) : Bool :=
  listContainsSub (needle.data.map lowerA) (hay.data.map lowerA)

/-- The WHERE clause `genres LIKE '%{genre}%'`: NULL genres yields NULL
(row filtered out); a string cell is matched case-insensitively.  (A
numeric genres cell, which SQLite would coerce to text, is outside the
modelled fragment and treated as no match.) -/
def genresLikeCI (genre : String) (r : Row) : Bool :=
  match getCell r "genres" with
  | Option.some (CVal.str s) => containsCI s genre
  | _ => false

def tmbgCols : List String := ["title", "vote_average", "vote_count", "genres"]

/-- `top_movies_by_genre(genre, limit)`. -/
def top_movies_by_genre (rows : List Row) (genre : String)
    (limit : Nat := 10) : List Row :=
  ((sortBy byRatingDesc (rows.filter (genresLikeCI genre))).take limit).map
    (selectRow tmbgCols)

/-- `ORDER BY movie_count DESC` on the (genres, COUNT(*)) result rows. -/
def byCountDesc (a b : Cell × Nat) : Bool := Nat.ble b.2 a.2

/-- `movies_per_genre(limit)`: WHERE genres IS NOT NULL, GROUP BY genres
(the exact stored value), COUNT(*), ORDER BY count DESC, LIMIT.  A result
row is the pair (genres value, count). -/
def movies_per_genre (rows : List Row) (limit : Nat := 20) : List (Cell × Nat) :=
  let nn := rows.filter (fun r => (getCell r "genres").isSome)
  let keys := (nn.map (fun r => getCell r "genres")).dedup
  let groups := keys.map (fun k => (k, (nn.filter (fun r => getCell r "genres" = k)).length))
  (sortBy byCountDesc groups).take limit

/-! ## Filesystem state and `archive_file`

A flat filesystem: a set of existing directories and a map from file path
to file content.  `Path.mkdir(exist_ok=True)` creates the directory if
absent; `shutil.move(src, archive_dir/base)` is a same-filesystem rename,
which on POSIX silently replaces an existing destination file.  Moving a
missing source raises; the modelled fragment assumes the archive
directory's parent exists and that no directory sits at the destination
path. -/

structure FS where
  dirs : List String
  files : List (String × String)
deriving DecidableEq

def baseName (p : String) : String := String.mk ((splitChAux '/' p.data []).getLastD [])

def archive_file (fs : FS) (csv_path : String)
    (archive_dir : String := "archive") : Except String FS :=
  let fs1 := if archive_dir ∈ fs.dirs then fs
    else { fs with dirs := archive_dir :: fs.dirs }
  match fs1.files.lookup csv_path with
  | Option.none => Except.error "FileNotFoundError"
  | Option.some content =>
    let dst := archive_dir ++ "/" ++ baseName csv_path
    Except.ok { fs1 with
      files := (dst, content) ::
        fs1.files.filter (fun p => !(p.1 = csv_path) && !(p.1 = dst)) }


/-! ## Predicates used in the claims and concrete example data -/

/-- A cell that is missing or holds a string (the shape of every cell of an
object column produced by `read_csv`). -/
def cellStrOrNull : Cell → Bool
  | Option.some (CVal.num _) => false
  | _ => true

/-- The pipe-delimited segments of a genres string (`s.split("|")`). -/
def pipeSegments (s : String) : List String :=
  (splitChAux '|' s.data []).map String.mk

/-- Claim C3's invariant on one genres string: no segment is empty or
whitespace-only after trimming. -/
def segmentsOk (s : String) : Bool :=
  (pipeSegments s).all (fun t => !(pyStrip t = ""))

/-- Input table with a mixed-type title column (a string and a number),
which pandas types as `object`: the `.str.strip()` pass turns the numeric
title into NaN after the final dropna has already run. -/
def cexC1df : DataFrame :=
  ⟨["title", "release_date"], ["title", "release_date"],
   [[("title", Option.some (CVal.str "A")),
     ("release_date", Option.some (CVal.str "2020-01-05"))],
    [("title", Option.some (CVal.num 5)),
     ("release_date", Option.some (CVal.str "2020-01-05"))]]⟩

/-- Input table with string-or-missing titles (one row missing its title). -/
def wC1df : DataFrame :=
  ⟨["title", "release_date"], ["title", "release_date"],
   [[("title", Option.some (CVal.str " A ")),
     ("release_date", Option.some (CVal.str "2020-01-05"))],
    [("title", Option.none),
     ("release_date", Option.some (CVal.str "2021-03-02"))]]⟩

def wC1out : DataFrame := (clean_dataframe wC1df).toOption.getD ⟨[], [], []⟩

/-- Input table with one parseable and one unparseable release date. -/
def wC4df : DataFrame :=
  ⟨["title", "release_date"], ["title", "release_date"],
   [[("title", Option.some (CVal.str "Good")),
     ("release_date", Option.some (CVal.str "2019-07-01"))],
    [("title", Option.some (CVal.str "Bad")),
     ("release_date", Option.some (CVal.str "not-a-date"))]]⟩

def wC4badRow : Row :=
  [("title", Option.some (CVal.str "Bad")),
   ("release_date", Option.some (CVal.str "not-a-date"))]

def wC4out : DataFrame := (clean_dataframe wC4df).toOption.getD ⟨[], [], []⟩

/-- Input table with no `release_date` column. -/
def wC10df : DataFrame :=
  ⟨["title"], ["title"], [[("title", Option.some (CVal.str "A"))]]⟩

/-- A genres payload whose first object carries an empty name:
`[{"name": ""}, {"name": "Action"}]` flattens to `"|Action"`. -/
def gstrC3 : String :=
  "[\x7b\x22name\x22: \x22\x22\x7d, \x7b\x22name\x22: \x22Action\x22\x7d]"

def cexC3df : DataFrame :=
  ⟨["title", "release_date", "genres"], ["title", "release_date", "genres"],
   [[("title", Option.some (CVal.str "A")),
     ("release_date", Option.some (CVal.str "2020-01-05")),
     ("genres", Option.some (CVal.str gstrC3))]]⟩

def cexC3out : DataFrame := (clean_dataframe cexC3df).toOption.getD ⟨[], [], []⟩

/-- Scenario rows for claim C5: one movie rated 7.9, one rated 8.5 with
1200 votes. -/
def wC5rowA : Row :=
  [("title", Option.some (CVal.str "Seven")),
   ("release_year", Option.some (CVal.num 1995)),
   ("vote_average", Option.some (CVal.num (mkRat 79 10))),
   ("vote_count", Option.some (CVal.num 5000))]

def wC5rowB : Row :=
  [("title", Option.some (CVal.str "The Dark Knight")),
   ("release_year", Option.some (CVal.num 2008)),
   ("vote_average", Option.some (CVal.num (mkRat 85 10))),
   ("vote_count", Option.some (CVal.num 1200))]

/-- Scenario rows for claim C6. -/
def wC6rowAT : Row :=
  [("title", Option.some (CVal.str "Heat")),
   ("vote_average", Option.some (CVal.num (mkRat 8 1))),
   ("vote_count", Option.some (CVal.num 900)),
   ("genres", Option.some (CVal.str "Action|Thriller"))]

def wC6rowD : Row :=
  [("title", Option.some (CVal.str "Carol")),
   ("vote_average", Option.some (CVal.num (mkRat 76 10))),
   ("vote_count", Option.some (CVal.num 800)),
   ("genres", Option.some (CVal.str "Drama"))]

/-- A row whose genres string is upper-cased: SQLite LIKE still matches it
against the genre "Action". -/
def cexC6row : Row :=
  [("title", Option.some (CVal.str "Shout")),
   ("vote_average", Option.some (CVal.num 9)),
   ("vote_count", Option.some (CVal.num 50)),
   ("genres", Option.some (CVal.str "ACTION"))]

/-- Store rows for claim C7: two movies tagged "Action|Comedy", one
tagged "Drama". -/
def wC7r1 : Row :=
  [("title", Option.some (CVal.str "M1")),
   ("genres", Option.some (CVal.str "Action|Comedy"))]

def wC7r2 : Row :=
  [("title", Option.some (CVal.str "M2")),
   ("genres", Option.some (CVal.str "Action|Comedy"))]

def wC7r3 : Row :=
  [("title", Option.some (CVal.str "M3")),
   ("genres", Option.some (CVal.str "Drama"))]

/-- Filesystem for claim C9's happy path: the archive directory does not
exist yet. -/
def wC9fs : FS := ⟨[], [("data/movies.csv", "rows")]⟩

def wC9fs2 : FS :=
  (archive_file wC9fs "data/movies.csv" "archive").toOption.getD ⟨[], []⟩

/-- Filesystem for claim C9's collision case: the archive already holds a
file with the base name of the source. -/
def cexC9fs : FS := ⟨["archive"], [("data.csv", "new"), ("archive/data.csv", "old")]⟩

/-- Expected cleaned frame for `wC10df`: empty, with the projected columns. -/
def wC10out : DataFrame :=
  ⟨["title", "release_year", "genres"], ["title", "release_year", "genres"], []⟩

/-! ## Lemmas and theorems -/


/-! ### Access lemmas -/

theorem getCell_eraseCol_self (r : Row) (c : String) :
    getCell (eraseCol r c) c = none := by
  induction r with
  | nil => rfl
  | cons p r ih =>
    simp only [eraseCol, List.filter_cons] at ih ⊢
    by_cases h : p.1 = c
    · simp [h, ih]
    · simp [h, getCell, ih]

theorem getCell_eraseCol_ne (r : Row) (c c2 : String) (h : c2 ≠ c) :
    getCell (eraseCol r c) c2 = getCell r c2 := by
  induction r with
  | nil => rfl
  | cons p r ih =>
    simp only [eraseCol, List.filter_cons] at ih ⊢
    by_cases hp : p.1 = c
    · have hpc : ¬ p.1 = c2 := by rw [hp]; exact fun hc => h hc.symm
      simp [hp, getCell, hpc, ih, Ne.symm h]
    · by_cases hc : p.1 = c2
      · simp [hp, getCell, hc, h]
      · simp [hp, getCell, hc, ih, h]

theorem getCell_setCell_self (r : Row) (c : String) (v : Cell) :
    getCell (setCell r c v) c = v := by
  simp [setCell, getCell]

theorem getCell_setCell_ne (r : Row) (c c2 : String) (v : Cell) (h : c2 ≠ c) :
    getCell (setCell r c v) c2 = getCell r c2 := by
  have hne : c ≠ c2 := fun hc => h hc.symm
  simp [setCell, getCell, hne, getCell_eraseCol_ne r c c2 h]

theorem getCell_projRow (keep : List String) (r : Row) (c : String) :
    getCell (projRow keep r) c =
      (if c ∈ keep then getCell r c else none) := by
  induction r with
  | nil => simp [projRow, getCell]
  | cons p r ih =>
    simp only [projRow, List.filter] at ih ⊢
    by_cases hm : p.1 ∈ keep
    · by_cases hc : p.1 = c
      · subst hc
        simp [hm, getCell, ih]
      · simp [hm, getCell, hc, ih]
    · by_cases hc : p.1 = c
      · subst hc
        simp [hm, getCell, ih]
      · simp [hm, getCell, hc, ih]

theorem getCell_selectRow (cols : List String) (r : Row) (c : String)
    (h : c ∈ cols) : getCell (selectRow cols r) c = getCell r c := by
  induction cols with
  | nil => cases h
  | cons d cols ih =>
    by_cases hc : d = c
    · subst hc
      simp [selectRow, getCell]
    · rw [List.mem_cons] at h
      have hmem : c ∈ cols := by
        rcases h with h1 | h1
        · exact absurd h1.symm hc
        · exact h1
      simp only [selectRow, List.map] at ih ⊢
      simp [getCell, hc, ih hmem]

theorem dropWhile_of_prefix_of_fix {p : Char → Bool} {m1 m : List Char}
    (hpre : m1 <+: m) (hfix : m.dropWhile p = m) : m1.dropWhile p = m1 := by
  rcases hpre with ⟨t, rfl⟩
  cases m1 with
  | nil => rfl
  | cons a l =>
    simp only [List.cons_append] at hfix
    rw [List.dropWhile_cons] at hfix ⊢
    by_cases hp : p a
    · exfalso
      rw [if_pos hp] at hfix
      have hle := (List.dropWhile_suffix (l := l ++ t) p).length_le
      rw [hfix] at hle
      simp at hle
    · rw [if_neg hp]

theorem pyStrip_idem (s : String) : pyStrip (pyStrip s) = pyStrip s := by
  show String.mk _ = String.mk _
  have hdata : (String.mk (List.rdropWhile isWsChar (s.data.dropWhile isWsChar))).data
      = List.rdropWhile isWsChar (s.data.dropWhile isWsChar) := rfl
  rw [pyStrip, hdata]
  have hfix : (s.data.dropWhile isWsChar).dropWhile isWsChar = s.data.dropWhile isWsChar :=
    List.dropWhile_idempotent isWsChar s.data
  have hA : (List.rdropWhile isWsChar (s.data.dropWhile isWsChar)).dropWhile isWsChar
      = List.rdropWhile isWsChar (s.data.dropWhile isWsChar) :=
    dropWhile_of_prefix_of_fix (List.rdropWhile_prefix isWsChar _) hfix
  rw [hA, List.rdropWhile_idempotent]

/-! ### The pipeline as a single `filterMap` -/

theorem filter_map_filter_map_eq {α β γ : Type} (p : α → Bool) (f : α → β)
    (q : β → Bool) (g : β → γ) (l : List α) :
    (((l.filter p).map f).filter q).map g
      = l.filterMap (fun a =>
          if p a then
            if q (f a) then Option.some (g (f a)) else Option.none
          else Option.none) := by
  induction l with
  | nil => rfl
  | cons a l ih =>
    by_cases hp : p a
    · by_cases hq : q (f a)
      · simp [List.filter_cons, hp, hq, List.filterMap_cons, ih]
      · simp [List.filter_cons, hp, hq, List.filterMap_cons, ih]
    · simp [List.filter_cons, hp, List.filterMap_cons, ih]

theorem clean_ok_cols (df out : DataFrame) (h : clean_dataframe df = Except.ok out) :
    out.cols = colsKeep df ∧ out.objCols = objKeep df
      ∧ "title" ∈ colsKeep df ∧ "release_year" ∈ colsKeep df := by
  unfold clean_dataframe at h
  by_cases h1 : "title" ∈ colsKeep df
  · by_cases h2 : "release_year" ∈ colsKeep df
    · simp only [h1, h2, decide_True, Bool.and_self, if_true] at h
      injection h with h
      subst h
      exact ⟨rfl, rfl, h1, h2⟩
    · simp [h1, h2] at h
  · simp [h1] at h

theorem rows1_eq_filter (df : DataFrame) :
    (if "title" ∈ df.cols then dropnaRows df.rows ["title"] else df.rows)
      = df.rows.filter (titleKeepP df) := by
  by_cases ht : "title" ∈ df.cols
  · simp only [ht, if_true, dropnaRows]
    apply List.filter_congr
    intro r _
    simp [titleKeepP, ht]
  · simp only [ht, if_false]
    have : df.rows.filter (titleKeepP df) = df.rows.filter (fun _ => true) := by
      apply List.filter_congr
      intro r _
      simp [titleKeepP, ht]
    rw [this, List.filter_true]

theorem rows2_eq_map (df : DataFrame) (rows : List Row) :
    (if "release_date" ∈ df.cols then rows.map dateRowT
      else rows.map (fun r => setCell r "release_year" Option.none))
      = rows.map (dT df) := by
  by_cases hrd : "release_date" ∈ df.cols
  · simp only [hrd, if_true]
    congr 1
    funext r
    simp [dT, hrd]
  · simp only [hrd, if_false]
    congr 1
    funext r
    simp [dT, hrd]

theorem rows3_eq_map (df : DataFrame) (rows : List Row) :
    (if "genres" ∈ addCol df.cols "release_year" then rows.map genRowT
      else rows.map (fun r => setCell r "genres" Option.none))
      = rows.map (gT df) := by
  by_cases hg : "genres" ∈ addCol df.cols "release_year"
  · simp only [hg, if_true]
    congr 1
    funext r
    simp [gT, hg]
  · simp only [hg, if_false]
    congr 1
    funext r
    simp [gT, hg]

theorem dropna_final_eq_filter (rows : List Row) :
    dropnaRows rows ["title", "release_year"] = rows.filter finalKeepP := by
  apply List.filter_congr
  intro r _
  simp [finalKeepP]

theorem clean_ok_rows (df out : DataFrame) (h : clean_dataframe df = Except.ok out) :
    out.rows = df.rows.filterMap (cleanRowFun df) := by
  unfold clean_dataframe at h
  simp only [rows1_eq_filter, rows2_eq_map, rows3_eq_map, dropna_final_eq_filter] at h
  by_cases h1 : "title" ∈ colsKeep df
  · by_cases h2 : "release_year" ∈ colsKeep df
    · simp only [h1, h2, decide_True, Bool.and_self, if_true] at h
      injection h with h
      subst h
      dsimp only
      rw [List.map_map, List.map_map]
      have hcomp : ((projRow (colsKeep df) ∘ gT df) ∘ dT df) = transRow df := rfl
      rw [hcomp, filter_map_filter_map_eq]
      apply List.filterMap_congr
      intro r _
      rfl
    · simp [h1, h2] at h
  · simp [h1] at h

theorem cvalLe_total (a b : CVal) : cvalLe a b = true ∨ cvalLe b a = true := by
  cases a with
  | str s1 =>
    cases b with
    | str s2 =>
      rcases le_total s1 s2 with h | h
      · left; simp [cvalLe, h]
      · right; simp [cvalLe, h]
    | num q2 => right; simp [cvalLe]
  | num q1 =>
    cases b with
    | str s2 => left; simp [cvalLe]
    | num q2 =>
      rcases le_total q1 q2 with h | h
      · left; simp [cvalLe, h]
      · right; simp [cvalLe, h]

theorem cvalLe_trans (a b c : CVal) (h1 : cvalLe a b = true)
    (h2 : cvalLe b c = true) : cvalLe a c = true := by
  cases a with
  | str s1 =>
    cases b with
    | str s2 =>
      cases c with
      | str s3 =>
        simp only [cvalLe, decide_eq_true_eq] at h1 h2 ⊢
        exact le_trans h1 h2
      | num q3 => simp [cvalLe] at h2
    | num q2 => simp [cvalLe] at h1
  | num q1 =>
    cases b with
    | str s2 =>
      cases c with
      | str s3 => simp [cvalLe]
      | num q3 => simp [cvalLe] at h2
    | num q2 =>
      cases c with
      | str s3 => simp [cvalLe]
      | num q3 =>
        simp only [cvalLe, decide_eq_true_eq] at h1 h2 ⊢
        exact le_trans h1 h2

theorem sqliteLe_total (a b : Cell) : sqliteLe a b = true ∨ sqliteLe b a = true := by
  cases a with
  | none => left; rfl
  | some v =>
    cases b with
    | none => right; rfl
    | some w => exact cvalLe_total v w

theorem sqliteLe_trans (a b c : Cell) (h1 : sqliteLe a b = true)
    (h2 : sqliteLe b c = true) : sqliteLe a c = true := by
  cases a with
  | none => rfl
  | some v =>
    cases b with
    | none => simp [sqliteLe] at h1
    | some w =>
      cases c with
      | none => simp [sqliteLe] at h2
      | some u => exact cvalLe_trans v w u h1 h2

theorem insertBy_perm {α : Type} (le : α → α → Bool) (a : α) (l : List α) :
    (insertBy le a l).Perm (a :: l) := by
  induction l with
  | nil => exact List.Perm.refl _
  | cons b l ih =>
    by_cases h : le a b
    · simp [insertBy, h]
    · simp only [insertBy, h, if_false]
      exact (List.Perm.cons b ih).trans (List.Perm.swap a b l)

theorem sortBy_perm {α : Type} (le : α → α → Bool) (l : List α) :
    (sortBy le l).Perm l := by
  induction l with
  | nil => exact List.Perm.refl _
  | cons a l ih =>
    exact (insertBy_perm le a (sortBy le l)).trans (List.Perm.cons a ih)

theorem mem_sortBy {α : Type} (le : α → α → Bool) (l : List α) (x : α) :
    x ∈ sortBy le l ↔ x ∈ l :=
  (sortBy_perm le l).mem_iff

theorem mem_insertBy {α : Type} (le : α → α → Bool) (a : α) (l : List α) (x : α) :
    x ∈ insertBy le a l ↔ x = a ∨ x ∈ l := by
  rw [(insertBy_perm le a l).mem_iff, List.mem_cons]

theorem pairwise_insertBy {α : Type} (le : α → α → Bool)
    (htot : ∀ a b, le a b = true ∨ le b a = true)
    (htr : ∀ a b c, le a b = true → le b c = true → le a c = true)
    (a : α) (l : List α) (hl : l.Pairwise (fun x y => le x y = true)) :
    (insertBy le a l).Pairwise (fun x y => le x y = true) := by
  induction l with
  | nil => simp [insertBy]
  | cons b l ih =>
    rcases List.pairwise_cons.mp hl with ⟨hb, hl2⟩
    by_cases h : le a b
    · simp only [insertBy, h, if_true]
      refine List.pairwise_cons.mpr ⟨?_, hl⟩
      intro x hx
      rcases List.mem_cons.mp hx with hx | hx
      · rw [hx]; exact h
      · exact htr a b x h (hb x hx)
    · simp only [insertBy, h, if_false]
      refine List.pairwise_cons.mpr ⟨?_, ih hl2⟩
      intro x hx
      rcases (mem_insertBy le a l x).mp hx with hx | hx
      · rw [hx]
        rcases htot a b with h2 | h2
        · exact absurd h2 h
        · exact h2
      · exact hb x hx

theorem pairwise_sortBy {α : Type} (le : α → α → Bool)
    (htot : ∀ a b, le a b = true ∨ le b a = true)
    (htr : ∀ a b c, le a b = true → le b c = true → le a c = true)
    (l : List α) : (sortBy le l).Pairwise (fun x y => le x y = true) := by
  induction l with
  | nil => simp [sortBy]
  | cons a l ih => exact pairwise_insertBy le htot htr a (sortBy le l) ih

theorem length_sortBy {α : Type} (le : α → α → Bool) (l : List α) :
    (sortBy le l).length = l.length :=
  (sortBy_perm le l).length_eq

/-! ### Cell-level facts about the cleaning pipeline -/

theorem getCell_stripRow (objCs : List String) (r : Row) (c : String) :
    getCell (stripRow objCs r) c =
      (if c ∈ objCs then stripCell (getCell r c) else getCell r c) := by
  induction r with
  | nil =>
    by_cases hm : c ∈ objCs
    · simp [stripRow, getCell, hm, stripCell]
    · simp [stripRow, getCell, hm]
  | cons p r ih =>
    simp only [stripRow, List.map] at ih ⊢
    by_cases hp : p.1 ∈ objCs
    · rw [if_pos hp]
      by_cases hc : p.1 = c
      · subst hc
        simp [getCell, ih, hp]
      · simp [getCell, hc, ih]
    · rw [if_neg hp]
      by_cases hc : p.1 = c
      · subst hc
        simp [getCell, ih, hp]
      · simp [getCell, hc, ih]

theorem mem_addCol_self (cols : List String) (c : String) : c ∈ addCol cols c := by
  unfold addCol
  by_cases h : c ∈ cols
  · simp [h]
  · simp [h]

theorem mem_addCol_of_mem (cols : List String) (c d : String) (h : c ∈ cols) :
    c ∈ addCol cols d := by
  unfold addCol
  by_cases hd : d ∈ cols
  · simpa [hd]
  · simp [hd, List.mem_append, h]

theorem mem_addCol_iff (cols : List String) (c d : String) :
    c ∈ addCol cols d ↔ c ∈ cols ∨ c = d := by
  unfold addCol
  by_cases hd : d ∈ cols
  · simp only [hd, if_true]
    constructor
    · exact fun h => Or.inl h
    · rintro (h | h)
      · exact h
      · rw [h]; exact hd
  · simp [hd, List.mem_append]

theorem ry_mem_colsKeep (df : DataFrame) : "release_year" ∈ colsKeep df := by
  unfold colsKeep colsStage
  apply List.mem_filter.mpr
  refine ⟨by decide, ?_⟩
  have : "release_year" ∈ addCol (addCol df.cols "release_year") "genres" :=
    mem_addCol_of_mem _ _ _ (mem_addCol_self _ _)
  simpa using this

theorem genres_mem_colsKeep (df : DataFrame) : "genres" ∈ colsKeep df := by
  unfold colsKeep colsStage
  apply List.mem_filter.mpr
  refine ⟨by decide, ?_⟩
  simpa using mem_addCol_self (addCol df.cols "release_year") "genres"

theorem title_mem_colsKeep_iff (df : DataFrame) :
    "title" ∈ colsKeep df ↔ "title" ∈ df.cols := by
  unfold colsKeep colsStage
  rw [List.mem_filter]
  constructor
  · intro h
    have h2 := of_decide_eq_true h.2
    rcases (mem_addCol_iff _ _ _).mp h2 with h3 | h3
    · rcases (mem_addCol_iff _ _ _).mp h3 with h4 | h4
      · exact h4
      · exact absurd h4 (by decide)
    · exact absurd h3 (by decide)
  · intro h
    refine ⟨by decide, decide_eq_true ?_⟩
    exact mem_addCol_of_mem _ _ _ (mem_addCol_of_mem _ _ _ h)

theorem genres_mem_objKeep (df : DataFrame) : "genres" ∈ objKeep df := by
  unfold objKeep
  apply List.mem_filter.mpr
  refine ⟨?_, decide_eq_true (genres_mem_colsKeep df)⟩
  unfold objColsStage
  exact mem_addCol_self _ _

theorem ry_not_mem_objColsStage_of_rd (df : DataFrame)
    (hrd : "release_date" ∈ df.cols) : "release_year" ∉ objColsStage df := by
  unfold objColsStage
  simp only [hrd, if_true]
  intro h
  rcases (mem_addCol_iff _ _ _).mp h with h2 | h2
  · rcases List.mem_filter.mp h2 with ⟨_, hp⟩
    simp at hp
  · exact absurd h2 (by decide)

theorem ry_not_mem_objKeep_of_rd (df : DataFrame)
    (hrd : "release_date" ∈ df.cols) : "release_year" ∉ objKeep df := by
  intro h
  exact ry_not_mem_objColsStage_of_rd df hrd (List.mem_filter.mp h).1

theorem getCell_gT_ne (df : DataFrame) (r : Row) (c : String)
    (h : c ≠ "genres") : getCell (gT df r) c = getCell r c := by
  unfold gT
  by_cases hg : "genres" ∈ addCol df.cols "release_year"
  · simp only [hg, if_true, genRowT]
    exact getCell_setCell_ne _ _ _ _ h
  · simp only [hg, if_false]
    exact getCell_setCell_ne _ _ _ _ h

theorem getCell_dT_ne (df : DataFrame) (r : Row) (c : String)
    (h1 : c ≠ "release_date") (h2 : c ≠ "release_year") :
    getCell (dT df r) c = getCell r c := by
  unfold dT
  by_cases hrd : "release_date" ∈ df.cols
  · simp only [hrd, if_true, dateRowT]
    rw [getCell_setCell_ne _ _ _ _ h2, getCell_setCell_ne _ _ _ _ h1]
  · simp only [hrd, if_false]
    exact getCell_setCell_ne _ _ _ _ h2

theorem getCell_dT_year (df : DataFrame) (r : Row) :
    getCell (dT df r) "release_year" =
      (if "release_date" ∈ df.cols then
        (pdParseDate (getCell r "release_date")).map (fun n => CVal.num (n : Rat))
      else Option.none) := by
  unfold dT
  by_cases hrd : "release_date" ∈ df.cols
  · simp only [hrd, if_true, dateRowT]
    exact getCell_setCell_self _ _ _
  · simp only [hrd, if_false]
    exact getCell_setCell_self _ _ _

theorem transRow_title (df : DataFrame) (r : Row) :
    getCell (transRow df r) "title" =
      (if "title" ∈ colsKeep df then getCell r "title" else Option.none) := by
  unfold transRow
  rw [getCell_projRow]
  by_cases hk : "title" ∈ colsKeep df
  · simp only [hk, if_true]
    rw [getCell_gT_ne df _ _ (by decide), getCell_dT_ne df _ _ (by decide) (by decide)]
  · simp [hk]

theorem transRow_year (df : DataFrame) (r : Row) :
    getCell (transRow df r) "release_year" =
      (if "release_date" ∈ df.cols then
        (pdParseDate (getCell r "release_date")).map (fun n => CVal.num (n : Rat))
      else Option.none) := by
  unfold transRow
  rw [getCell_projRow]
  simp only [ry_mem_colsKeep df, if_true]
  rw [getCell_gT_ne df _ _ (by decide), getCell_dT_year]

theorem transRow_genres (df : DataFrame) (r : Row) :
    getCell (transRow df r) "genres" =
      (if "genres" ∈ addCol df.cols "release_year" then
        (extract_genres (getCell r "genres")).map CVal.str
      else Option.none) := by
  unfold transRow
  rw [getCell_projRow]
  simp only [genres_mem_colsKeep df, if_true]
  unfold gT
  by_cases hg : "genres" ∈ addCol df.cols "release_year"
  · simp only [hg, if_true, genRowT]
    rw [getCell_setCell_self,
      getCell_dT_ne df _ _ (by decide) (by decide)]
  · simp only [hg, if_false]
    exact getCell_setCell_self _ _ _

/-! ## Claim theorems -/

/-- Claim C10: if the input table has no `release_date` column, the frame
returned by `clean_dataframe` is empty — `release_year` is set to null for
every row and the final dropna then removes every row. -/
theorem c10_no_release_date_empty (df out : DataFrame)
    (hrd : "release_date" ∉ df.cols)
    (h : clean_dataframe df = Except.ok out) : out.rows = [] := by
  rw [clean_ok_rows df out h]
  rw [List.filterMap_eq_nil_iff]
  intro r _
  unfold cleanRowFun
  by_cases ht : titleKeepP df r = true
  · rw [if_pos ht]
    have hy : getCell (transRow df r) "release_year" = Option.none := by
      rw [transRow_year]
      simp [hrd]
    have hf : finalKeepP (transRow df r) = false := by
      unfold finalKeepP
      rw [hy]
      simp
    rw [hf]
    simp
  · rw [if_neg ht]

/-- Witness for C10 at a concrete one-row table without `release_date`. -/
theorem c10_witness :
    ("release_date" ∉ wC10df.cols) ∧
    clean_dataframe wC10df = Except.ok wC10out ∧ wC10out.rows = [] :=
  ⟨by decide, by rfl,
   c10_no_release_date_empty wC10df wC10out (by decide) (by rfl)⟩

/-- Claim C4: when the input has a `release_date` column, the output rows
are exactly the per-row pipeline over the input rows, and every row whose
`release_date` fails to parse is sent to `none` (its derived year is null,
so the final dropna removes it); the other rows are unaffected. -/
theorem c4_unparseable_date_dropped (df out : DataFrame)
    (hrd : "release_date" ∈ df.cols)
    (h : clean_dataframe df = Except.ok out) :
    out.rows = df.rows.filterMap (cleanRowFun df) ∧
    ∀ r, pdParseDate (getCell r "release_date") = Option.none →
      cleanRowFun df r = Option.none := by
  refine ⟨clean_ok_rows df out h, ?_⟩
  intro r hparse
  unfold cleanRowFun
  by_cases ht : titleKeepP df r = true
  · rw [if_pos ht]
    have hy : getCell (transRow df r) "release_year" = Option.none := by
      rw [transRow_year]
      simp [hrd, hparse]
    have hf : finalKeepP (transRow df r) = false := by
      unfold finalKeepP
      rw [hy]
      simp
    rw [hf]
    simp
  · rw [if_neg ht]

/-- Witness for C4 at a concrete table with one unparseable date. -/
theorem c4_witness :
    ("release_date" ∈ wC4df.cols) ∧
    clean_dataframe wC4df = Except.ok wC4out ∧
    pdParseDate (getCell wC4badRow "release_date") = Option.none ∧
    cleanRowFun wC4df wC4badRow = Option.none ∧
    wC4out.rows = wC4df.rows.filterMap (cleanRowFun wC4df) :=
  ⟨by decide, by rfl, by rfl,
   (c4_unparseable_date_dropped wC4df wC4out (by decide) (by rfl)).2 wC4badRow (by rfl),
   (c4_unparseable_date_dropped wC4df wC4out (by decide) (by rfl)).1⟩

/-- Claim C8: the store write is idempotent — `to_sql(if_exists="replace")`
replaces the table under the key, so writing the same frame twice leaves
the same persisted state as writing it once, whatever was stored before. -/
theorem c8_save_idempotent (st : Store) (df : DataFrame) (db tbl : String) :
    save_dataframe_to_sqlite (save_dataframe_to_sqlite st df db tbl) df db tbl
      = save_dataframe_to_sqlite st df db tbl := by
  unfold save_dataframe_to_sqlite
  congr 1
  rw [List.filter_cons]
  simp only [decide_True, Bool.not_true, Bool.false_eq_true, if_false]
  rw [List.filter_filter]
  apply List.filter_congr
  intro p _
  rw [Bool.and_self]

theorem lookup_filter_ne_none (l : List (String × String)) (k : String)
    (q : String × String → Bool) :
    (l.filter (fun p => !(p.1 = k) && q p)).lookup k = Option.none := by
  induction l with
  | nil => rfl
  | cons p l ih =>
    rw [List.filter_cons]
    by_cases hp : (!(p.1 = k) && q p) = true
    · rw [if_pos hp]
      have hne : ¬ p.1 = k := by
        by_contra hc
        simp [hc] at hp
      have hbeq : (k == p.1) = false := by
        rw [beq_eq_false_iff_ne]
        exact fun hc => hne hc.symm
      simp [List.lookup, hbeq, ih]
    · rw [if_neg hp]
      exact ih

/-- Claim C9 (amended): `archive_file` creates the archive directory when
absent and moves the source file to `archive_dir/basename`, leaving the
source path empty.  A same-named file already at the destination does not
make the operation fail: the same-filesystem rename silently replaces it
(POSIX `os.rename` semantics under `shutil.move`). -/
theorem c9_archive_creates_dir_and_moves (fs : FS) (src dir content : String)
    (hsrc : fs.files.lookup src = Option.some content)
    (hne : ¬ src = dir ++ "/" ++ baseName src) :
    (∃ fs2, archive_file fs src dir = Except.ok fs2) ∧
    (∀ fs2, archive_file fs src dir = Except.ok fs2 →
      dir ∈ fs2.dirs ∧
      fs2.files.lookup (dir ++ "/" ++ baseName src) = Option.some content ∧
      fs2.files.lookup src = Option.none) := by
  have hfiles : (if dir ∈ fs.dirs then fs
      else { fs with dirs := dir :: fs.dirs }).files = fs.files := by
    by_cases hd : dir ∈ fs.dirs
    · rw [if_pos hd]
    · rw [if_neg hd]
  have hdirs : dir ∈ (if dir ∈ fs.dirs then fs
      else { fs with dirs := dir :: fs.dirs }).dirs := by
    by_cases hd : dir ∈ fs.dirs
    · rw [if_pos hd]; exact hd
    · rw [if_neg hd]; exact List.mem_cons_self _ _
  have heq : archive_file fs src dir = Except.ok
      { dirs := (if dir ∈ fs.dirs then fs
          else { fs with dirs := dir :: fs.dirs }).dirs,
        files := (dir ++ "/" ++ baseName src, content) ::
          fs.files.filter (fun p =>
            !(p.1 = src) && !(p.1 = dir ++ "/" ++ baseName src)) } := by
    unfold archive_file
    simp only [hfiles, hsrc]
  refine ⟨⟨_, heq⟩, ?_⟩
  intro fs2 h2
  rw [heq] at h2
  injection h2 with h2
  subst h2
  refine ⟨hdirs, ?_, ?_⟩
  · simp [List.lookup]
  · have hbeq : (src == dir ++ "/" ++ baseName src) = false := by
      rw [beq_eq_false_iff_ne]
      exact hne
    simp only [List.lookup, hbeq]
    exact lookup_filter_ne_none fs.files src _

/-- Witness for C9's amended statement: archiving into a not-yet-existing
directory creates it, relocates the file and empties the source path. -/
theorem c9_witness :
    wC9fs.files.lookup "data/movies.csv" = Option.some "rows" ∧
    ("archive" ∉ wC9fs.dirs) ∧
    archive_file wC9fs "data/movies.csv" "archive" = Except.ok wC9fs2 ∧
    "archive" ∈ wC9fs2.dirs ∧
    wC9fs2.files.lookup ("archive" ++ "/" ++ baseName "data/movies.csv")
      = Option.some "rows" ∧
    wC9fs2.files.lookup "data/movies.csv" = Option.none := by
  have h := (c9_archive_creates_dir_and_moves wC9fs "data/movies.csv" "archive"
    "rows" (by rfl) (by decide)).2 wC9fs2 (by rfl)
  exact ⟨by rfl, by decide, by rfl, h.1, h.2.1, h.2.2⟩

/-- Counterexample to C9 as stated: the archive directory already holds
`data.csv`, yet the call returns successfully (no I/O error is raised) and
the stored file is replaced by the moved one. -/
theorem c9_counterexample :
    cexC9fs.files.lookup ("archive" ++ "/" ++ baseName "data.csv")
      = Option.some "old" ∧
    archive_file cexC9fs "data.csv" "archive"
      = Except.ok ⟨["archive"], [("archive/data.csv", "new")]⟩ :=
  ⟨by rfl, by rfl⟩

/-- Claim C1 (amended): for every input table whose title cells are all
strings or missing (the shape `read_csv` produces; a mixed-type object
title column falsifies the unrestricted claim), every row of the cleaned
frame has a non-null title and a non-null release_year; the output rows
are the per-row pipeline over the input rows, and an input row with a
missing title is sent to `none`, so no corresponding row appears. -/
theorem c1_title_year_invariant (df out : DataFrame)
    (hstr : ∀ r ∈ df.rows, cellStrOrNull (getCell r "title") = true)
    (h : clean_dataframe df = Except.ok out) :
    (∀ r ∈ out.rows, (getCell r "title").isSome = true ∧
        (getCell r "release_year").isSome = true) ∧
    out.rows = df.rows.filterMap (cleanRowFun df) ∧
    (∀ r, getCell r "title" = Option.none → cleanRowFun df r = Option.none) := by
  have hdecomp := clean_ok_rows df out h
  have hcols := clean_ok_cols df out h
  have htitlecol : "title" ∈ df.cols := (title_mem_colsKeep_iff df).mp hcols.2.2.1
  refine ⟨?_, hdecomp, ?_⟩
  · intro r hr
    rw [hdecomp] at hr
    rcases List.mem_filterMap.mp hr with ⟨r0, hr0, hfr0⟩
    unfold cleanRowFun at hfr0
    by_cases ht : titleKeepP df r0 = true
    · rw [if_pos ht] at hfr0
      by_cases hf : finalKeepP (transRow df r0) = true
      · rw [if_pos hf] at hfr0
        injection hfr0 with hfr0
        subst hfr0
        unfold finalKeepP at hf
        rw [Bool.and_eq_true] at hf
        rcases hf with ⟨hfT, hfY⟩
        have htt : getCell (transRow df r0) "title" = getCell r0 "title" := by
          rw [transRow_title, if_pos hcols.2.2.1]
        constructor
        · rw [getCell_stripRow]
          by_cases hobj : "title" ∈ objKeep df
          · rw [if_pos hobj]
            have hsn := hstr r0 hr0
            rw [htt] at hfT
            cases hv : getCell r0 "title" with
            | none => rw [hv] at hfT; simp at hfT
            | some v =>
              cases v with
              | str s => rw [htt, hv]; rfl
              | num q => rw [hv] at hsn; simp [cellStrOrNull] at hsn
          · rw [if_neg hobj, htt]
            rw [htt] at hfT
            exact hfT
        · rw [getCell_stripRow]
          by_cases hrd : "release_date" ∈ df.cols
          · rw [if_neg (ry_not_mem_objKeep_of_rd df hrd)]
            exact hfY
          · exfalso
            have hy : getCell (transRow df r0) "release_year" = Option.none := by
              rw [transRow_year]
              simp [hrd]
            rw [hy] at hfY
            simp at hfY
      · rw [if_neg hf] at hfr0
        exact Option.noConfusion hfr0
    · rw [if_neg ht] at hfr0
      exact Option.noConfusion hfr0
  · intro r hnone
    unfold cleanRowFun
    have hfalse : titleKeepP df r = false := by
      unfold titleKeepP
      rw [if_pos htitlecol, hnone]
      rfl
    rw [hfalse]
    simp

/-- Counterexample to C1 as stated: on a table whose object-typed title
column holds a string and a number (pandas-legal, dtype object), the
returned frame contains a row with a null title — the `.str.strip()` pass
runs after the final dropna and turns the non-string title into NaN. -/
theorem c1_counterexample :
    (clean_dataframe cexC1df).map (fun o => o.rows.map (fun r => getCell r "title"))
      = Except.ok [Option.some (CVal.str "A"), Option.none] := by rfl

/-- Witness for C1's amended statement at a concrete two-row table, one
row of which is missing its title. -/
theorem c1_witness :
    (∀ r ∈ wC1df.rows, cellStrOrNull (getCell r "title") = true) ∧
    clean_dataframe wC1df = Except.ok wC1out ∧
    ((getCell (wC1out.rows.getD 0 []) "title").isSome = true ∧
      (getCell (wC1out.rows.getD 0 []) "release_year").isSome = true) ∧
    cleanRowFun wC1df (wC1df.rows.getD 1 []) = Option.none := by
  have h := c1_title_year_invariant wC1df wC1out (by decide) (by rfl)
  exact ⟨by decide, by rfl, h.1 _ (by decide), h.2.2 _ (by rfl)⟩

/-- Claim C3 (amended): every record persisted by the ETL pipeline (the
cleaned frame written to the store) has a whole-string-trimmed genres
value when non-null; individual pipe-delimited segments may still be
empty or whitespace-only (see the counterexample). -/
theorem c3_persisted_genres_trimmed (df out : DataFrame) (st : Store)
    (db tbl : String) (h : clean_dataframe df = Except.ok out) :
    lookupTable (save_dataframe_to_sqlite st out db tbl) db tbl = Option.some out ∧
    ∀ r ∈ out.rows, ∀ s, getCell r "genres" = Option.some (CVal.str s) →
      pyStrip s = s := by
  constructor
  · unfold lookupTable save_dataframe_to_sqlite
    simp [List.lookup]
  · intro r hr s hs
    rw [clean_ok_rows df out h] at hr
    rcases List.mem_filterMap.mp hr with ⟨r0, hr0, hfr0⟩
    unfold cleanRowFun at hfr0
    by_cases ht : titleKeepP df r0 = true
    · rw [if_pos ht] at hfr0
      by_cases hf : finalKeepP (transRow df r0) = true
      · rw [if_pos hf] at hfr0
        injection hfr0 with hfr0
        subst hfr0
        rw [getCell_stripRow, if_pos (genres_mem_objKeep df)] at hs
        cases hg : getCell (transRow df r0) "genres" with
        | none =>
          rw [hg] at hs
          simp [stripCell] at hs
        | some v =>
          cases v with
          | str t =>
            rw [hg] at hs
            have h2 : CVal.str (pyStrip t) = CVal.str s := Option.some.inj hs
            injection h2 with h2
            rw [← h2, pyStrip_idem]
          | num q =>
            rw [hg] at hs
            simp [stripCell] at hs
      · rw [if_neg hf] at hfr0
        exact Option.noConfusion hfr0
    · rw [if_neg ht] at hfr0
      exact Option.noConfusion hfr0

/-- Counterexample to C3 as stated: a genre payload with an empty name
flattens to `"|Action"`, which is persisted as-is and has an empty first
pipe-delimited segment. -/
theorem c3_counterexample :
    clean_dataframe cexC3df = Except.ok cexC3out ∧
    lookupTable (save_dataframe_to_sqlite [] cexC3out) "data.db" "movies"
      = Option.some cexC3out ∧
    cexC3out.rows.map (fun r => getCell r "genres")
      = [Option.some (CVal.str "|Action")] ∧
    segmentsOk "|Action" = false :=
  ⟨by rfl, by rfl, by rfl, by rfl⟩

/-- Witness for C3's amended statement at the concrete pipeline output. -/
theorem c3_witness :
    clean_dataframe cexC3df = Except.ok cexC3out ∧
    lookupTable (save_dataframe_to_sqlite [] cexC3out "data.db" "movies")
      "data.db" "movies" = Option.some cexC3out ∧
    pyStrip "|Action" = "|Action" := by
  have h := c3_persisted_genres_trimmed cexC3df cexC3out [] "data.db" "movies" (by rfl)
  exact ⟨by rfl, h.1, h.2 (cexC3out.rows.getD 0 []) (by decide) "|Action" (by rfl)⟩

/-- Claim C2 (amended): `extract_genres` is total — for every input string
it returns a pipe-joined string or null and never raises; a malformed
literal yields null; objects lacking the `name` field are skipped rather
than nulling the result, so a list whose objects all lack `name` yields
the empty string, not null. -/
theorem c2_extract_genres_total (s : String) (kvs : List (String × PyVal))
    (hparse : pyLiteralEval s = Option.some (PyVal.list [PyVal.dict kvs]))
    (hk : ∀ p ∈ kvs, ¬ p.1 = "name") :
    (∀ s2 : String, extract_genres (Option.some (CVal.str s2)) = Option.none ∨
      ∃ t, extract_genres (Option.some (CVal.str s2)) = Option.some t) ∧
    (∀ s2 : String, pyLiteralEval s2 = Option.none →
      extract_genres (Option.some (CVal.str s2)) = Option.none) ∧
    extract_genres (Option.some (CVal.str s)) = Option.some "" := by
  refine ⟨?_, ?_, ?_⟩
  · intro s2
    cases hx : extract_genres (Option.some (CVal.str s2)) with
    | none => exact Or.inl rfl
    | some t => exact Or.inr ⟨t, rfl⟩
  · intro s2 hp
    simp only [extract_genres]
    rw [hp]
  · have hany : (kvs.any (fun p => p.1 = "name")) = false := by
      rw [List.any_eq_false]
      intro p hp
      simp [hk p hp]
    have hfil : exFilterName [PyVal.dict kvs] = Except.ok [] := by
      have hstep : exFilterName [PyVal.dict kvs]
          = Except.ok (if kvs.any (fun p => p.1 = "name")
              then [PyVal.dict kvs] else []) := rfl
      rw [hstep, hany]
      rfl
    have hE : extractGenresE (PyVal.list [PyVal.dict kvs]) = Except.ok "" := by
      have hstep : extractGenresE (PyVal.list [PyVal.dict kvs])
          = (do
              let kept ← exFilterName [PyVal.dict kvs]
              let names ← kept.mapM pyGetNameStr
              pure (String.intercalate "|" names) : Except Unit String) := rfl
      rw [hstep, hfil]
      rfl
    simp only [extract_genres]
    rw [hparse]
    show (match extractGenresE (PyVal.list [PyVal.dict kvs]) with
      | Except.ok t => Option.some t
      | Except.error _ => Option.none) = Option.some ""
    rw [hE]

/-- Counterexample to C2 as stated: a well-formed list whose only object
lacks the `name` field produces the empty string, not null. -/
theorem c2_counterexample :
    extract_genres (Option.some (CVal.str "[\x7b\x27id\x27: 28\x7d]"))
      = Option.some "" ∧
    Option.some "" ≠ (Option.none : Option String) :=
  ⟨by rfl, by decide⟩

/-- Witness for C2's amended statement at `[{'id': 28}]` and at a
malformed literal. -/
theorem c2_witness :
    pyLiteralEval "[\x7b\x27id\x27: 28\x7d]"
      = Option.some (PyVal.list [PyVal.dict [("id", PyVal.int 28)]]) ∧
    (∀ p ∈ [("id", PyVal.int 28)], ¬ p.1 = "name") ∧
    extract_genres (Option.some (CVal.str "[\x7b\x27id\x27: 28\x7d]"))
      = Option.some "" ∧
    extract_genres (Option.some (CVal.str "not a literal")) = Option.none := by
  have h := c2_extract_genres_total "[\x7b\x27id\x27: 28\x7d]"
    [("id", PyVal.int 28)] (by rfl) (by decide)
  exact ⟨by rfl, by decide, h.2.2, h.2.1 "not a literal" (by rfl)⟩

theorem mem_query_pipeline (p : Row → Bool) (le : Row → Row → Bool) (n : Nat)
    (cols : List String) (rows : List Row) (r : Row)
    (hr : r ∈ ((sortBy le (rows.filter p)).take n).map (selectRow cols)) :
    ∃ r0, r0 ∈ rows ∧ p r0 = true ∧ r = selectRow cols r0 := by
  rcases List.mem_map.mp hr with ⟨r0, hr0, heq⟩
  have hmem : r0 ∈ sortBy le (rows.filter p) := List.mem_of_mem_take hr0
  rw [mem_sortBy] at hmem
  rcases List.mem_filter.mp hmem with ⟨hmem2, hp⟩
  exact ⟨r0, hmem2, hp, heq.symm⟩

theorem pairwise_rating_pipeline (rows : List Row) (p : Row → Bool) (n : Nat)
    (cols : List String) (hva : "vote_average" ∈ cols) :
    (((sortBy byRatingDesc (rows.filter p)).take n).map (selectRow cols)).Pairwise
      (fun r1 r2 =>
        sqliteLe (getCell r2 "vote_average") (getCell r1 "vote_average") = true) := by
  have hs := pairwise_sortBy byRatingDesc
    (fun a b => sqliteLe_total (getCell b "vote_average") (getCell a "vote_average"))
    (fun a b c h1 h2 => sqliteLe_trans _ _ _ h2 h1)
    (rows.filter p)
  have ht := hs.sublist (List.take_sublist n _)
  refine List.Pairwise.map _ ?_ ht
  intro a b hab
  rw [getCell_selectRow _ _ _ hva, getCell_selectRow _ _ _ hva]
  exact hab

theorem length_query_pipeline (l : List Row) (n : Nat) (cols : List String) :
    (((l.take n).map (selectRow cols))).length ≤ n := by
  rw [List.length_map]
  exact List.length_take_le n l

/-- Claim C5: every row returned by `high_rated_popular_movies` passes the
two WHERE comparisons (so a numeric rating is ≥ min_rating), the rows are
ordered by `vote_average` descending, at most 10 rows are returned, and
the spec's concrete scenario returns exactly the 8.5-rated row. -/
theorem c5_high_rated_popular_movies (rows : List Row) (minR minV : Rat) :
    (∀ r ∈ high_rated_popular_movies rows minR minV,
        cellGeNum (getCell r "vote_average") minR = true ∧
        cellGeNum (getCell r "vote_count") minV = true) ∧
    (∀ r ∈ high_rated_popular_movies rows minR minV, ∀ a : Rat,
        getCell r "vote_average" = Option.some (CVal.num a) → minR ≤ a) ∧
    (high_rated_popular_movies rows minR minV).Pairwise
        (fun r1 r2 =>
          sqliteLe (getCell r2 "vote_average") (getCell r1 "vote_average") = true) ∧
    (high_rated_popular_movies rows minR minV).length ≤ 10 ∧
    high_rated_popular_movies [wC5rowA, wC5rowB] (mkRat 8 1) (mkRat 1000 1)
      = [selectRow hrpmCols wC5rowB] := by
  have hA : ∀ r ∈ high_rated_popular_movies rows minR minV,
      cellGeNum (getCell r "vote_average") minR = true ∧
      cellGeNum (getCell r "vote_count") minV = true := by
    intro r hr
    unfold high_rated_popular_movies at hr
    rcases mem_query_pipeline _ _ _ _ _ _ hr with ⟨r0, _, hp, heq⟩
    subst heq
    unfold hrpmCond at hp
    rw [Bool.and_eq_true] at hp
    constructor
    · rw [getCell_selectRow _ _ _ (by decide : "vote_average" ∈ hrpmCols)]
      exact hp.1
    · rw [getCell_selectRow _ _ _ (by decide : "vote_count" ∈ hrpmCols)]
      exact hp.2
  refine ⟨hA, ?_, ?_, ?_, by rfl⟩
  · intro r hr a ha
    have h1 := (hA r hr).1
    rw [ha] at h1
    unfold cellGeNum cvalLe at h1
    exact of_decide_eq_true h1
  · unfold high_rated_popular_movies
    exact pairwise_rating_pipeline rows _ 10 hrpmCols (by decide)
  · unfold high_rated_popular_movies
    exact length_query_pipeline _ 10 hrpmCols

/-- Witness for C5 at the spec's scenario store. -/
theorem c5_witness :
    high_rated_popular_movies [wC5rowA, wC5rowB] (mkRat 8 1) (mkRat 1000 1)
      = [selectRow hrpmCols wC5rowB] ∧
    cellGeNum (getCell (selectRow hrpmCols wC5rowB) "vote_average") (mkRat 8 1)
      = true ∧
    mkRat 8 1 ≤ mkRat 85 10 ∧
    (high_rated_popular_movies [wC5rowA, wC5rowB] (mkRat 8 1) (mkRat 1000 1)).length
      ≤ 10 := by
  have h := c5_high_rated_popular_movies [wC5rowA, wC5rowB] (mkRat 8 1) (mkRat 1000 1)
  exact ⟨h.2.2.2.2,
    (h.1 (selectRow hrpmCols wC5rowB) (by decide)).1,
    h.2.1 (selectRow hrpmCols wC5rowB) (by decide) (mkRat 85 10) (by rfl),
    h.2.2.2.1⟩

/-- Claim C6 (amended): `top_movies_by_genre` returns exactly the rows
whose genres string contains the genre name as a substring *up to ASCII
case* (SQLite's LIKE is case-insensitive; see the counterexample for why
the case-sensitive reading fails), ordered by `vote_average` descending
and limited to N; a row not matching case-insensitively never appears. -/
theorem c6_top_movies_by_genre (rows : List Row) (genre : String) (limit : Nat) :
    (∀ r ∈ top_movies_by_genre rows genre limit,
        genresLikeCI genre r = true) ∧
    (∀ r ∈ top_movies_by_genre rows genre limit,
        ∃ r0, r0 ∈ rows ∧ genresLikeCI genre r0 = true ∧
          r = selectRow tmbgCols r0) ∧
    (top_movies_by_genre rows genre limit).Pairwise
        (fun r1 r2 =>
          sqliteLe (getCell r2 "vote_average") (getCell r1 "vote_average") = true) ∧
    (top_movies_by_genre rows genre limit).length ≤ limit ∧
    top_movies_by_genre [wC6rowAT, wC6rowD] "Action" 10
      = [selectRow tmbgCols wC6rowAT] := by
  have hB : ∀ r ∈ top_movies_by_genre rows genre limit,
      ∃ r0, r0 ∈ rows ∧ genresLikeCI genre r0 = true ∧
        r = selectRow tmbgCols r0 := by
    intro r hr
    unfold top_movies_by_genre at hr
    exact mem_query_pipeline _ _ _ _ _ _ hr
  refine ⟨?_, hB, ?_, ?_, by rfl⟩
  · intro r hr
    rcases hB r hr with ⟨r0, _, hp, heq⟩
    subst heq
    unfold genresLikeCI at hp ⊢
    rw [getCell_selectRow _ _ _ (by decide : "genres" ∈ tmbgCols)]
    exact hp
  · unfold top_movies_by_genre
    exact pairwise_rating_pipeline rows _ limit tmbgCols (by decide)
  · unfold top_movies_by_genre
    exact length_query_pipeline _ limit tmbgCols

/-- Counterexample to C6 as stated: a stored row with genres `"ACTION"` is
returned by `top_movies_by_genre("Action")` although `"ACTION"` does not
contain `"Action"` as a (case-sensitive) substring — SQLite's LIKE
compares ASCII letters case-insensitively. -/
theorem c6_counterexample :
    top_movies_by_genre [cexC6row] "Action" 10 = [selectRow tmbgCols cexC6row] ∧
    getCell cexC6row "genres" = Option.some (CVal.str "ACTION") ∧
    strContainsSub "ACTION" "Action" = false :=
  ⟨by rfl, by rfl, by rfl⟩

/-- Witness for C6's amended statement at the spec's scenario store. -/
theorem c6_witness :
    top_movies_by_genre [wC6rowAT, wC6rowD] "Action" 10
      = [selectRow tmbgCols wC6rowAT] ∧
    genresLikeCI "Action" (selectRow tmbgCols wC6rowAT) = true ∧
    (top_movies_by_genre [wC6rowAT, wC6rowD] "Action" 10).length ≤ 10 := by
  have h := c6_top_movies_by_genre [wC6rowAT, wC6rowD] "Action" 10
  exact ⟨h.2.2.2.2,
    h.1 (selectRow tmbgCols wC6rowAT) (by decide),
    h.2.2.2.1⟩

theorem byCountDesc_total (a b : Cell × Nat) :
    byCountDesc a b = true ∨ byCountDesc b a = true := by
  unfold byCountDesc
  rcases Nat.le_total b.2 a.2 with h | h
  · left; rw [Nat.ble_eq]; exact h
  · right; rw [Nat.ble_eq]; exact h

theorem byCountDesc_trans (a b c : Cell × Nat) (h1 : byCountDesc a b = true)
    (h2 : byCountDesc b c = true) : byCountDesc a c = true := by
  unfold byCountDesc at h1 h2 ⊢
  rw [Nat.ble_eq] at h1 h2 ⊢
  exact le_trans h2 h1

theorem count_pipeline_pairwise (l : List (Cell × Nat)) (n : Nat) :
    ((sortBy byCountDesc l).take n).Pairwise (fun a b => b.2 ≤ a.2) := by
  have hs := pairwise_sortBy byCountDesc byCountDesc_total byCountDesc_trans l
  refine (hs.sublist (List.take_sublist n _)).imp ?_
  intro a b h
  rw [byCountDesc, Nat.ble_eq] at h
  exact h

theorem count_pipeline_nodup (keys : List Cell) (f : Cell → Nat) (n : Nat)
    (hnd : keys.Nodup) :
    (((sortBy byCountDesc (keys.map (fun k => (k, f k)))).take n).map Prod.fst).Nodup := by
  have hkeys : (keys.map (fun k => (k, f k))).map Prod.fst = keys := by
    rw [List.map_map]
    exact List.map_id _
  have hperm := (sortBy_perm byCountDesc (keys.map (fun k => (k, f k)))).map Prod.fst
  have hnd2 : ((sortBy byCountDesc (keys.map (fun k => (k, f k)))).map Prod.fst).Nodup :=
    (hperm.nodup_iff).mpr (by rw [hkeys]; exact hnd)
  exact hnd2.sublist ((List.take_sublist n _).map Prod.fst)

/-- Claim C7: `movies_per_genre` groups by the exact stored genres string —
every returned pair carries a non-null key together with the number of
stored rows whose genres equal that key exactly (each movie counted once
under its full combination), the keys are pairwise distinct (no
per-individual-genre double counting), groups are ordered by count
descending, and at most N groups are returned. -/
theorem c7_movies_per_genre (rows : List Row) (limit : Nat) :
    (∀ p ∈ movies_per_genre rows limit,
        p.1.isSome = true ∧
        p.2 = (rows.filter (fun r => getCell r "genres" = p.1)).length) ∧
    ((movies_per_genre rows limit).map Prod.fst).Nodup ∧
    (movies_per_genre rows limit).Pairwise (fun a b => b.2 ≤ a.2) ∧
    (movies_per_genre rows limit).length ≤ limit := by
  refine ⟨?_, ?_, ?_, ?_⟩
  · intro p hp
    unfold movies_per_genre at hp
    have hp2 := List.mem_of_mem_take hp
    rw [mem_sortBy] at hp2
    rcases List.mem_map.mp hp2 with ⟨k, hk, heq⟩
    subst heq
    have hks : k.isSome = true := by
      rw [List.mem_dedup] at hk
      rcases List.mem_map.mp hk with ⟨r0, hr0, heq0⟩
      rcases List.mem_filter.mp hr0 with ⟨_, hsome⟩
      rw [← heq0]
      exact hsome
    refine ⟨hks, ?_⟩
    show ((rows.filter (fun r => (getCell r "genres").isSome)).filter
        (fun r => getCell r "genres" = k)).length = _
    rw [List.filter_filter]
    congr 1
    apply List.filter_congr
    intro r _
    by_cases he : getCell r "genres" = k
    · simp [he, hks]
    · simp [he]
  · unfold movies_per_genre
    exact count_pipeline_nodup _ _ limit (List.nodup_dedup _)
  · unfold movies_per_genre
    exact count_pipeline_pairwise _ limit
  · unfold movies_per_genre
    calc ((sortBy byCountDesc _).take limit).length ≤ limit :=
      List.length_take_le limit _

/-- Witness for C7 at a three-row store ("Action|Comedy" twice, "Drama"
once): the combination is counted once with count 2, not under the
individual genres. -/
theorem c7_witness :
    movies_per_genre [wC7r1, wC7r2, wC7r3] 20
      = [(Option.some (CVal.str "Action|Comedy"), 2),
         (Option.some (CVal.str "Drama"), 1)] ∧
    ((Option.some (CVal.str "Action|Comedy") : Cell).isSome = true ∧
      (2 : Nat) = ([wC7r1, wC7r2, wC7r3].filter
        (fun r => getCell r "genres"
          = Option.some (CVal.str "Action|Comedy"))).length) ∧
    (movies_per_genre [wC7r1, wC7r2, wC7r3] 20).length ≤ 20 := by
  have h := c7_movies_per_genre [wC7r1, wC7r2, wC7r3] 20
  exact ⟨by rfl,
    h.1 (Option.some (CVal.str "Action|Comedy"), 2) (by decide),
    h.2.2.2⟩
